import Mathlib

/-
Verification of the recognition-result wrapper in
`speechapi_cxx_recognition_result.h` (RecognitionResult, CancellationDetails,
NoMatchDetails).  The C++ classes wrap an opaque native handle
(`SPXRESULTHANDLE`) and forward queries to a separately shipped engine through
C API calls (`result_get_*`).  The engine is modelled as an oracle: for each
query it holds the value it would report and the status code (`SPXHR`) the
call would return.  The C++ wrapper logic itself (construction order, error
propagation, caching, destruction) is embedded from the source file; the C API
functions, whose implementation is not part of the repository, are modelled
from the specification and marked as such in their doc comments.
-/

namespace SpeechSDK

/-- SPXHR engine status code. `0` is `SPX_NOERROR`; any nonzero value is a
failure code. -/
abbrev SPXHR := Nat

/-- SPX_NOERROR, the success status code. -/
def SPX_NOERROR : SPXHR := 0

/-- SPXRESULTHANDLE, the opaque native handle, modelled as a natural number. -/
abbrev SPXRESULTHANDLE := Nat

/-- SPXHANDLE_INVALID, the distinguished invalid handle value. -/
def SPXHANDLE_INVALID : SPXRESULTHANDLE := 0

/-- Engine-side state of one recognition-result object, used as the oracle
behind the C API.  For each query it records the value the engine would
report and the `SPXHR` status code the corresponding C call returns
(`SPX_NOERROR` for success).  The `uint64_t` offset and duration are modelled
as `Nat` since the wrapper performs no arithmetic on them (pure
pass-through); enum values (`Result_Reason`, `Result_CancellationReason`,
`Result_CancellationErrorCode`, `Result_NoMatchReason`) are modelled by their
underlying numeric value, which the C++ casts preserve. -/
structure EngineResult where
  resultIdVal : String
  reasonVal : Nat
  textVal : String
  offsetVal : Nat
  durationVal : Nat
  cancelReasonVal : Nat
  cancelErrorCodeVal : Nat
  noMatchReasonVal : Nat
  props : List (String × String)
  hrResultId : SPXHR
  hrReason : SPXHR
  hrText : SPXHR
  hrOffset : SPXHR
  hrDuration : SPXHR
  hrCancelReason : SPXHR
  hrCancelErrorCode : SPXHR
  hrNoMatchReason : SPXHR

/-- Global engine state: the engine-side result object behind each handle,
plus, to make release behaviour observable, the number of times each handle
has actually been freed (a count of 2 or more on one handle would be a
double free). -/
structure EngineState where
  results : SPXRESULTHANDLE → EngineResult
  freeCount : SPXRESULTHANDLE → Nat

/-- One C API call made by the wrapper, recorded so that theorems can speak
about which engine queries an operation issues and in which order. -/
inductive EngineCall where
  | getPropertyBag
  | getResultId
  | getReason
  | getText
  | getOffset
  | getDuration
  | getReasonCanceled
  | getCanceledErrorCode
  | getNoMatchReason
  | getPropertyString
  | releaseHandle (h : SPXRESULTHANDLE)
deriving DecidableEq

/-- The fixed buffer bound used by `PopulateResultFields` in the source:
`const size_t maxCharCount = 1024`. -/
def maxCharCount : Nat := 1024

/-- Modelled from the spec: a bounded buffered string read.  The C API fills
a caller-supplied buffer of `cch` characters, truncating the engine-side
string beyond that bound rather than failing (spec section 6: "All string
reads use a bounded buffer ... callers must tolerate truncation beyond the
bound"). -/
def boundedRead (v : String) (cch : Nat) : String :=
  String.mk (v.data.take cch)

/-- Modelled from the spec: `Utils::ToSPXString` converts the C character
buffer to the SDK string type, preserving its content
(`speechapi_cxx_string_helpers.h` is not part of the repository). -/
def Utils.ToSPXString (s : String) : String := s

/-- Modelled from the spec: `result_get_result_id(hresult, sz, maxCharCount)`
reports the result id through a bounded buffer, or fails with the engine's
status code. -/
def result_get_result_id (e : EngineResult) (cch : Nat) : Except SPXHR String :=
  if e.hrResultId = SPX_NOERROR then Except.ok (boundedRead e.resultIdVal cch)
  else Except.error e.hrResultId

/-- Modelled from the spec: `result_get_reason(hresult, &resultReason)`. -/
def result_get_reason (e : EngineResult) : Except SPXHR Nat :=
  if e.hrReason = SPX_NOERROR then Except.ok e.reasonVal
  else Except.error e.hrReason

/-- Modelled from the spec: `result_get_text(hresult, sz, maxCharCount)`,
a bounded buffered string read like the result id. -/
def result_get_text (e : EngineResult) (cch : Nat) : Except SPXHR String :=
  if e.hrText = SPX_NOERROR then Except.ok (boundedRead e.textVal cch)
  else Except.error e.hrText

/-- Modelled from the spec: `result_get_offset(hresult, &offset)`. -/
def result_get_offset (e : EngineResult) : Except SPXHR Nat :=
  if e.hrOffset = SPX_NOERROR then Except.ok e.offsetVal
  else Except.error e.hrOffset

/-- Modelled from the spec: `result_get_duration(hresult, &duration)`. -/
def result_get_duration (e : EngineResult) : Except SPXHR Nat :=
  if e.hrDuration = SPX_NOERROR then Except.ok e.durationVal
  else Except.error e.hrDuration

/-- Modelled from the spec: `result_get_reason_canceled(hresult, &reason)`. -/
def result_get_reason_canceled (e : EngineResult) : Except SPXHR Nat :=
  if e.hrCancelReason = SPX_NOERROR then Except.ok e.cancelReasonVal
  else Except.error e.hrCancelReason

/-- Modelled from the spec: `result_get_canceled_error_code(hresult, &errorCode)`. -/
def result_get_canceled_error_code (e : EngineResult) : Except SPXHR Nat :=
  if e.hrCancelErrorCode = SPX_NOERROR then Except.ok e.cancelErrorCodeVal
  else Except.error e.hrCancelErrorCode

/-- Modelled from the spec: `result_get_no_match_reason(hresult, &reason)`. -/
def result_get_no_match_reason (e : EngineResult) : Except SPXHR Nat :=
  if e.hrNoMatchReason = SPX_NOERROR then Except.ok e.noMatchReasonVal
  else Except.error e.hrNoMatchReason

/-- Modelled from the spec: `result_get_property_bag(hresult, &hpropbag)`
yields the property bag of the result.  The constructor of
`PrivatePropertyCollection` ignores this call's status code, so its failure
mode is not modelled; the bag is represented by its key/value contents
(immutable engine-side data in this model). -/
def result_get_property_bag (e : EngineResult) : List (String × String) :=
  e.props

/-- Modelled from the spec: `recognizer_result_handle_release(hresult)`.
Releasing `SPXHANDLE_INVALID` is a no-op (this is what makes the destructor's
release logic safe to run twice); releasing any other handle performs one
free, recorded in `freeCount`. -/
def recognizer_result_handle_release (h : SPXRESULTHANDLE) (s : EngineState) :
    EngineState :=
  if h = SPXHANDLE_INVALID then s
  else { s with freeCount := fun x => if x = h then s.freeCount x + 1 else s.freeCount x }

/-- Modelled from the spec: `PropertyCollection::GetProperty`
(`speechapi_cxx_properties.h` is not part of the repository).  Looking up a
key the bag does not contain returns the empty string, not an error (spec
section 8: "Property-bag lookup ... on a result with no such property
returns an empty/absent value, not an error"). -/
def GetProperty (props : List (String × String)) (key : String) : String :=
  match props.lookup key with
  | some v => v
  | none => ""

/-- The well-known key `PropertyId::SpeechServiceResponse_JsonErrorDetails`
read by `CancellationDetails` for its `ErrorDetails` field. -/
def PropertyId_SpeechServiceResponse_JsonErrorDetails : String :=
  "SpeechServiceResponse_JsonErrorDetails"

/-- The cached fields of a constructed `RecognitionResult` object:
`m_hresult` (the owned raw handle), `m_properties` (the property collection
obtained from `result_get_property_bag` at construction), and the five
fields written by `PopulateResultFields`.  The public members `ResultId`,
`Reason`, `Text` are const references bound to `m_resultId`, `m_reason`,
`m_text` at construction and are embedded below as accessor functions. -/
structure RecognitionResult where
  m_hresult : SPXRESULTHANDLE
  m_properties : List (String × String)
  m_resultId : String
  m_reason : Nat
  m_text : String
  m_offset : Nat
  m_duration : Nat
deriving DecidableEq

/-- `RecognitionResult::PopulateResultFields`, as invoked by the constructor
with non-null `resultId`, `reason` and `text` pointers (so each of the three
guarded blocks executes).  It issues the five queries in source order —
result id, reason, text, offset, duration — through the bounded
`maxCharCount` buffer for the two strings, applying `Utils::ToSPXString` to
the buffer contents, and `SPX_THROW_ON_FAIL` aborts at the first failing
call: the failing status code is thrown and no later query is issued.  The
returned list records the C API calls made, in order. -/
def PopulateResultFields (e : EngineResult) :
    Except SPXHR (String × Nat × String × Nat × Nat) × List EngineCall :=
  match result_get_result_id e maxCharCount with
  | Except.error hr => (Except.error hr, [EngineCall.getResultId])
  | Except.ok rid =>
    match result_get_reason e with
    | Except.error hr =>
      (Except.error hr, [EngineCall.getResultId, EngineCall.getReason])
    | Except.ok rsn =>
      match result_get_text e maxCharCount with
      | Except.error hr =>
        (Except.error hr,
         [EngineCall.getResultId, EngineCall.getReason, EngineCall.getText])
      | Except.ok txt =>
        match result_get_offset e with
        | Except.error hr =>
          (Except.error hr,
           [EngineCall.getResultId, EngineCall.getReason, EngineCall.getText,
            EngineCall.getOffset])
        | Except.ok off =>
          match result_get_duration e with
          | Except.error hr =>
            (Except.error hr,
             [EngineCall.getResultId, EngineCall.getReason, EngineCall.getText,
              EngineCall.getOffset, EngineCall.getDuration])
          | Except.ok dur =>
            (Except.ok (Utils.ToSPXString rid, rsn, Utils.ToSPXString txt, off, dur),
             [EngineCall.getResultId, EngineCall.getReason, EngineCall.getText,
              EngineCall.getOffset, EngineCall.getDuration])

/-- The protected constructor `RecognitionResult(SPXRESULTHANDLE hresult)`.
Member initialisation first builds `m_properties` from
`result_get_property_bag` and stores `m_hresult = hresult`; the body then
runs `PopulateResultFields`.  If any query fails the constructor throws: the
object is never produced, and — this being C++ — `~RecognitionResult` does
not run for the partially constructed object, so no release of `hresult`
happens on that path (nothing in the constructor catches the exception).
The engine state is returned unchanged (queries are reads), together with
the C API calls made. -/
def RecognitionResult.construct (hresult : SPXRESULTHANDLE) (s : EngineState) :
    Except SPXHR RecognitionResult × EngineState × List EngineCall :=
  let e := s.results hresult
  let bag := result_get_property_bag e
  match PopulateResultFields e with
  | (Except.error hr, t) => (Except.error hr, s, EngineCall.getPropertyBag :: t)
  | (Except.ok (rid, rsn, txt, off, dur), t) =>
    (Except.ok
      { m_hresult := hresult, m_properties := bag, m_resultId := rid,
        m_reason := rsn, m_text := txt, m_offset := off, m_duration := dur },
     s, EngineCall.getPropertyBag :: t)

/-- `~RecognitionResult`: releases the stored handle through
`recognizer_result_handle_release` and then sets `m_hresult` to
`SPXHANDLE_INVALID`. -/
def RecognitionResult.destroy (r : RecognitionResult) (s : EngineState) :
    RecognitionResult × EngineState × List EngineCall :=
  ({ r with m_hresult := SPXHANDLE_INVALID },
   recognizer_result_handle_release r.m_hresult s,
   [EngineCall.releaseHandle r.m_hresult])

/-- The full lifecycle of a `RecognitionResult` built on `hresult`: construct
it, and on success eventually destroy it (the destructor runs when the
owning `shared_ptr` drops the object).  On a constructor throw C++ runs no
destructor for the partially constructed object, so the lifecycle ends with
the engine state the failed construction left behind. -/
def RecognitionResult.lifecycle (hresult : SPXRESULTHANDLE) (s : EngineState) :
    EngineState × List EngineCall :=
  match RecognitionResult.construct hresult s with
  | (Except.ok r, s1, t) =>
    match RecognitionResult.destroy r s1 with
    | (_, s2, t2) => (s2, t ++ t2)
  | (Except.error _, s1, t) => (s1, t)

/-- Public accessor `ResultId` (const reference bound to `m_resultId`): a
pure read of the cached field.  The view, the engine state and the empty
call list are returned to make explicit that the read mutates nothing and
issues no engine query. -/
def RecognitionResult.ResultId (r : RecognitionResult) (s : EngineState) :
    String × RecognitionResult × EngineState × List EngineCall :=
  (r.m_resultId, r, s, [])

/-- Public accessor `Reason` (const reference bound to `m_reason`). -/
def RecognitionResult.Reason (r : RecognitionResult) (s : EngineState) :
    Nat × RecognitionResult × EngineState × List EngineCall :=
  (r.m_reason, r, s, [])

/-- Public accessor `Text` (const reference bound to `m_text`). -/
def RecognitionResult.Text (r : RecognitionResult) (s : EngineState) :
    String × RecognitionResult × EngineState × List EngineCall :=
  (r.m_text, r, s, [])

/-- Public accessor `Duration()`: `return m_duration;`. -/
def RecognitionResult.Duration (r : RecognitionResult) (s : EngineState) :
    Nat × RecognitionResult × EngineState × List EngineCall :=
  (r.m_duration, r, s, [])

/-- Public accessor `Offset()`: `return m_offset;`. -/
def RecognitionResult.Offset (r : RecognitionResult) (s : EngineState) :
    Nat × RecognitionResult × EngineState × List EngineCall :=
  (r.m_offset, r, s, [])

/-- Public accessor `Properties` (const reference bound to `m_properties`). -/
def RecognitionResult.Properties (r : RecognitionResult) (s : EngineState) :
    List (String × String) × RecognitionResult × EngineState × List EngineCall :=
  (r.m_properties, r, s, [])

/-- The public member `explicit operator SPXRESULTHANDLE()`, documented
"Internal. Explicit conversion operator." in the source: it returns the raw
stored handle `m_hresult`. -/
def RecognitionResult.operatorSPXRESULTHANDLE (r : RecognitionResult) :
    SPXRESULTHANDLE :=
  r.m_hresult

/-- The fields of a constructed `CancellationDetails` object.  The public
members `Reason` and `ErrorCode` are const references bound to `m_reason`
and `m_errorCode`; `ErrorDetails` is a const value member. -/
structure CancellationDetails where
  m_reason : Nat
  m_errorCode : Nat
  ErrorDetails : String
deriving DecidableEq

/-- `CancellationDetails::GetCancellationReason`: obtains the raw handle via
the result's explicit conversion operator and calls
`result_get_reason_canceled`, throwing the status code on failure
(`SPX_IFFAILED_THROW_HR`). -/
def CancellationDetails.GetCancellationReason (r : RecognitionResult)
    (s : EngineState) : Except SPXHR Nat :=
  result_get_reason_canceled
    (s.results (RecognitionResult.operatorSPXRESULTHANDLE r))

/-- `CancellationDetails::GetCancellationErrorCode`: obtains the raw handle
via the result's explicit conversion operator and calls
`result_get_canceled_error_code`, throwing the status code on failure. -/
def CancellationDetails.GetCancellationErrorCode (r : RecognitionResult)
    (s : EngineState) : Except SPXHR Nat :=
  result_get_canceled_error_code
    (s.results (RecognitionResult.operatorSPXRESULTHANDLE r))

/-- `CancellationDetails::FromResult` together with the protected
constructor it invokes.  The precondition check on `result->Reason` is
commented out in the source (VSTS 1407221), so no condition on the result's
reason is enforced.  Member initialisation order: `m_reason` from
`GetCancellationReason`, then `m_errorCode` from `GetCancellationErrorCode`,
then `ErrorDetails` from the result's property collection; a failing query
throws, aborting construction before the later reads.  The source view and
the engine state are returned (unchanged — the constructor only reads), plus
the list of C API calls made. -/
def CancellationDetails.fromResult (r : RecognitionResult) (s : EngineState) :
    Except SPXHR CancellationDetails × RecognitionResult × EngineState ×
      List EngineCall :=
  match CancellationDetails.GetCancellationReason r s with
  | Except.error hr => (Except.error hr, r, s, [EngineCall.getReasonCanceled])
  | Except.ok cr =>
    match CancellationDetails.GetCancellationErrorCode r s with
    | Except.error hr =>
      (Except.error hr, r, s,
       [EngineCall.getReasonCanceled, EngineCall.getCanceledErrorCode])
    | Except.ok ec =>
      (Except.ok
        { m_reason := cr, m_errorCode := ec,
          ErrorDetails :=
            GetProperty r.m_properties
              PropertyId_SpeechServiceResponse_JsonErrorDetails },
       r, s,
       [EngineCall.getReasonCanceled, EngineCall.getCanceledErrorCode,
        EngineCall.getPropertyString])

/-- The field of a constructed `NoMatchDetails` object; the public member
`Reason` is a const reference bound to `m_reason`. -/
structure NoMatchDetails where
  m_reason : Nat
deriving DecidableEq

/-- `NoMatchDetails::GetNoMatchReason`: obtains the raw handle via the
result's explicit conversion operator and calls
`result_get_no_match_reason`, throwing the status code on failure. -/
def NoMatchDetails.GetNoMatchReason (r : RecognitionResult)
    (s : EngineState) : Except SPXHR Nat :=
  result_get_no_match_reason
    (s.results (RecognitionResult.operatorSPXRESULTHANDLE r))

/-- `NoMatchDetails::FromResult` together with the protected constructor it
invokes.  The precondition check on `result->Reason` is commented out in the
source (VSTS 1407221).  Exactly one engine field is queried: the no-match
reason. -/
def NoMatchDetails.fromResult (r : RecognitionResult) (s : EngineState) :
    Except SPXHR NoMatchDetails × RecognitionResult × EngineState ×
      List EngineCall :=
  match NoMatchDetails.GetNoMatchReason r s with
  | Except.error hr => (Except.error hr, r, s, [EngineCall.getNoMatchReason])
  | Except.ok n =>
    (Except.ok { m_reason := n }, r, s, [EngineCall.getNoMatchReason])

/-- All five construction-time queries report success for this engine-side
result. -/
def queriesAllOk (e : EngineResult) : Prop :=
  e.hrResultId = SPX_NOERROR ∧ e.hrReason = SPX_NOERROR ∧
  e.hrText = SPX_NOERROR ∧ e.hrOffset = SPX_NOERROR ∧
  e.hrDuration = SPX_NOERROR

instance (e : EngineResult) : Decidable (queriesAllOk e) := by
  unfold queriesAllOk
  infer_instance

/-- The status code of the first failing query, in the order the constructor
issues them (id, reason, text, offset, duration). -/
def firstFailingHr (e : EngineResult) : SPXHR :=
  if e.hrResultId ≠ SPX_NOERROR then e.hrResultId
  else if e.hrReason ≠ SPX_NOERROR then e.hrReason
  else if e.hrText ≠ SPX_NOERROR then e.hrText
  else if e.hrOffset ≠ SPX_NOERROR then e.hrOffset
  else e.hrDuration

end SpeechSDK

namespace SpeechSDK

/-- A concrete engine-side result on which every query succeeds, carrying the
example values of spec section 8. -/
def engineOk : EngineResult :=
  { resultIdVal := "abc123", reasonVal := 3, textVal := "hello world",
    offsetVal := 5000000, durationVal := 10000000,
    cancelReasonVal := 1, cancelErrorCodeVal := 0, noMatchReasonVal := 1,
    props := [],
    hrResultId := 0, hrReason := 0, hrText := 0, hrOffset := 0, hrDuration := 0,
    hrCancelReason := 0, hrCancelErrorCode := 0, hrNoMatchReason := 0 }

/-- The same engine-side result, except that the result-id query fails with
status code 7. -/
def engineIdFails : EngineResult := { engineOk with hrResultId := 7 }

/-- The same engine-side result, except that the no-match-reason query fails
with status code 9. -/
def engineNoMatchFails : EngineResult := { engineOk with hrNoMatchReason := 9 }

/-- Engine state putting `engineOk` behind every handle, no frees yet. -/
def stateOk : EngineState :=
  { results := fun _ => engineOk, freeCount := fun _ => 0 }

/-- Engine state putting `engineIdFails` behind every handle, no frees yet. -/
def stateIdFails : EngineState :=
  { results := fun _ => engineIdFails, freeCount := fun _ => 0 }

/-- Engine state putting `engineNoMatchFails` behind every handle. -/
def stateNoMatchFails : EngineState :=
  { results := fun _ => engineNoMatchFails, freeCount := fun _ => 0 }

/-- The view that `RecognitionResult.construct 1 stateOk` produces. -/
def viewEx : RecognitionResult :=
  { m_hresult := 1, m_properties := [], m_resultId := "abc123", m_reason := 3,
    m_text := "hello world", m_offset := 5000000, m_duration := 10000000 }

/-- A bounded buffered read never yields more characters than the buffer
holds. -/
theorem boundedRead_length_le (v : String) (n : Nat) :
    (boundedRead v n).length ≤ n := by
  show (v.data.take n).length ≤ n
  rw [List.length_take]
  exact Nat.min_le_left _ _

/-- When all five construction-time queries succeed, the constructor
produces the fully populated view, leaves the engine state unchanged, and
issues exactly the six C API calls of the source, in source order. -/
theorem construct_ok_of_allOk (hdl : SPXRESULTHANDLE) (s : EngineState)
    (hok : queriesAllOk (s.results hdl)) :
    RecognitionResult.construct hdl s =
      (Except.ok
        { m_hresult := hdl, m_properties := (s.results hdl).props,
          m_resultId := boundedRead (s.results hdl).resultIdVal maxCharCount,
          m_reason := (s.results hdl).reasonVal,
          m_text := boundedRead (s.results hdl).textVal maxCharCount,
          m_offset := (s.results hdl).offsetVal,
          m_duration := (s.results hdl).durationVal },
       s,
       [EngineCall.getPropertyBag, EngineCall.getResultId, EngineCall.getReason,
        EngineCall.getText, EngineCall.getOffset, EngineCall.getDuration]) := by
  obtain ⟨h1, h2, h3, h4, h5⟩ := hok
  simp [RecognitionResult.construct, PopulateResultFields, result_get_result_id,
        result_get_reason, result_get_text, result_get_offset,
        result_get_duration, result_get_property_bag, Utils.ToSPXString,
        h1, h2, h3, h4, h5]

/-- When some construction-time query fails, `PopulateResultFields` throws
the status code of the first failing query. -/
theorem populate_error_of_not_allOk (e : EngineResult)
    (hbad : ¬ queriesAllOk e) :
    (PopulateResultFields e).1 = Except.error (firstFailingHr e) ∧
      firstFailingHr e ≠ SPX_NOERROR := by
  by_cases h1 : e.hrResultId = SPX_NOERROR
  · by_cases h2 : e.hrReason = SPX_NOERROR
    · by_cases h3 : e.hrText = SPX_NOERROR
      · by_cases h4 : e.hrOffset = SPX_NOERROR
        · by_cases h5 : e.hrDuration = SPX_NOERROR
          · exact absurd ⟨h1, h2, h3, h4, h5⟩ hbad
          · constructor <;>
              simp [PopulateResultFields, result_get_result_id,
                    result_get_reason, result_get_text, result_get_offset,
                    result_get_duration, firstFailingHr, h1, h2, h3, h4, h5]
        · constructor <;>
            simp [PopulateResultFields, result_get_result_id, result_get_reason,
                  result_get_text, result_get_offset, result_get_duration,
                  firstFailingHr, h1, h2, h3, h4]
      · constructor <;>
          simp [PopulateResultFields, result_get_result_id, result_get_reason,
                result_get_text, result_get_offset, result_get_duration,
                firstFailingHr, h1, h2, h3]
    · constructor <;>
        simp [PopulateResultFields, result_get_result_id, result_get_reason,
              result_get_text, result_get_offset, result_get_duration,
              firstFailingHr, h1, h2]
  · constructor <;>
      simp [PopulateResultFields, result_get_result_id, result_get_reason,
            result_get_text, result_get_offset, result_get_duration,
            firstFailingHr, h1]

/-- When some construction-time query fails, the constructor throws the
first failing status code, the engine state is untouched, and the thrown
code is a genuine failure code. -/
theorem construct_error_of_not_allOk (hdl : SPXRESULTHANDLE) (s : EngineState)
    (hbad : ¬ queriesAllOk (s.results hdl)) :
    (RecognitionResult.construct hdl s).1 =
        Except.error (firstFailingHr (s.results hdl)) ∧
    (RecognitionResult.construct hdl s).2.1 = s ∧
    firstFailingHr (s.results hdl) ≠ SPX_NOERROR := by
  obtain ⟨hp, hne⟩ := populate_error_of_not_allOk (s.results hdl) hbad
  rcases hq : PopulateResultFields (s.results hdl) with ⟨res, t⟩
  rw [hq] at hp
  have hres : res = Except.error (firstFailingHr (s.results hdl)) := hp
  subst hres
  refine ⟨?_, ?_, hne⟩ <;> simp [RecognitionResult.construct, hq]

/-- C1 counterexample.  The claim states that the handle is released exactly
once on every exit path, including paths where an underlying query fails
during construction.  This is false: when the result-id query fails (status
code 7) the constructor throws, C++ runs no destructor for the partially
constructed object, and the whole lifecycle frees handle 1 zero times, not
once — the handle is leaked. -/
theorem C1_release_counterexample :
    (RecognitionResult.construct 1 stateIdFails).1 = Except.error 7 ∧
    (RecognitionResult.lifecycle 1 stateIdFails).1.freeCount 1 = 0 :=
  ⟨rfl, rfl⟩

/-- C1 (amended): on a valid handle whose construction succeeds, the
lifecycle releases the handle exactly once (when the view is destroyed), and
running the destructor's release logic a second time is safe: the destroyed
view's stored handle is `SPXHANDLE_INVALID`, and a second destroy leaves the
engine state unchanged (no double free).  But on a path where an underlying
query fails during construction, the destructor does not run, so the handle
is not released at all (leaked, zero releases) rather than released exactly
once. -/
theorem C1_release_amended (hdl : SPXRESULTHANDLE) (s : EngineState)
    (hvalid : hdl ≠ SPXHANDLE_INVALID) :
    (queriesAllOk (s.results hdl) →
      (RecognitionResult.lifecycle hdl s).1.freeCount hdl = s.freeCount hdl + 1) ∧
    (¬ queriesAllOk (s.results hdl) →
      (RecognitionResult.lifecycle hdl s).1.freeCount hdl = s.freeCount hdl) ∧
    (∀ (r : RecognitionResult) (s1 : EngineState),
      (RecognitionResult.destroy r s1).1.m_hresult = SPXHANDLE_INVALID ∧
      (RecognitionResult.destroy (RecognitionResult.destroy r s1).1
          (RecognitionResult.destroy r s1).2.1).2.1 =
        (RecognitionResult.destroy r s1).2.1) := by
  refine ⟨?_, ?_, ?_⟩
  · intro hok
    have hc := construct_ok_of_allOk hdl s hok
    simp [RecognitionResult.lifecycle, hc, RecognitionResult.destroy,
          recognizer_result_handle_release, hvalid]
  · intro hbad
    obtain ⟨h1, h2, _⟩ := construct_error_of_not_allOk hdl s hbad
    rcases hq : RecognitionResult.construct hdl s with ⟨res, s1, t⟩
    rw [hq] at h1 h2
    have hres : res = Except.error (firstFailingHr (s.results hdl)) := h1
    have hs1 : s1 = s := h2
    subst hres
    subst hs1
    simp [RecognitionResult.lifecycle, hq]
  · intro r s1
    refine ⟨rfl, ?_⟩
    simp [RecognitionResult.destroy, recognizer_result_handle_release]

/-- C1 witness: on handle 1 with the all-success engine, the full lifecycle
frees the handle exactly once. -/
theorem C1_release_amended_witness :
    (1 : SPXRESULTHANDLE) ≠ SPXHANDLE_INVALID ∧
    (RecognitionResult.lifecycle 1 stateOk).1.freeCount 1 =
      stateOk.freeCount 1 + 1 :=
  ⟨by decide, (C1_release_amended 1 stateOk (by decide)).1 (by decide)⟩

/-- C2: for every handle on which all five engine queries succeed,
constructing a view and then reading id, text, reason, offset and duration
through the public accessors returns exactly the values those queries
report, with no transformation.  ("The values the engine reports" are the
values delivered by the `result_get_*` calls for that handle; for the two
string fields that is the bounded-buffer read the C API performs.) -/
theorem C2_fidelity (hdl : SPXRESULTHANDLE) (s : EngineState)
    (i : String) (n : Nat) (t : String) (o d : Nat)
    (hid : result_get_result_id (s.results hdl) maxCharCount = Except.ok i)
    (hreason : result_get_reason (s.results hdl) = Except.ok n)
    (htext : result_get_text (s.results hdl) maxCharCount = Except.ok t)
    (hoff : result_get_offset (s.results hdl) = Except.ok o)
    (hdur : result_get_duration (s.results hdl) = Except.ok d) :
    ∃ r : RecognitionResult,
      (RecognitionResult.construct hdl s).1 = Except.ok r ∧
      (r.ResultId s).1 = i ∧ (r.Text s).1 = t ∧ (r.Reason s).1 = n ∧
      (r.Offset s).1 = o ∧ (r.Duration s).1 = d := by
  have h1 : (s.results hdl).hrResultId = SPX_NOERROR := by
    by_contra hb
    simp [result_get_result_id, hb] at hid
  have h2 : (s.results hdl).hrReason = SPX_NOERROR := by
    by_contra hb
    simp [result_get_reason, hb] at hreason
  have h3 : (s.results hdl).hrText = SPX_NOERROR := by
    by_contra hb
    simp [result_get_text, hb] at htext
  have h4 : (s.results hdl).hrOffset = SPX_NOERROR := by
    by_contra hb
    simp [result_get_offset, hb] at hoff
  have h5 : (s.results hdl).hrDuration = SPX_NOERROR := by
    by_contra hb
    simp [result_get_duration, hb] at hdur
  have hv1 : boundedRead (s.results hdl).resultIdVal maxCharCount = i := by
    simp [result_get_result_id, h1] at hid
    exact hid
  have hv2 : (s.results hdl).reasonVal = n := by
    simp [result_get_reason, h2] at hreason
    exact hreason
  have hv3 : boundedRead (s.results hdl).textVal maxCharCount = t := by
    simp [result_get_text, h3] at htext
    exact htext
  have hv4 : (s.results hdl).offsetVal = o := by
    simp [result_get_offset, h4] at hoff
    exact hoff
  have hv5 : (s.results hdl).durationVal = d := by
    simp [result_get_duration, h5] at hdur
    exact hdur
  have hc := construct_ok_of_allOk hdl s ⟨h1, h2, h3, h4, h5⟩
  refine ⟨{ m_hresult := hdl, m_properties := (s.results hdl).props,
            m_resultId := boundedRead (s.results hdl).resultIdVal maxCharCount,
            m_reason := (s.results hdl).reasonVal,
            m_text := boundedRead (s.results hdl).textVal maxCharCount,
            m_offset := (s.results hdl).offsetVal,
            m_duration := (s.results hdl).durationVal },
         ?_, hv1, hv3, hv2, hv4, hv5⟩
  rw [hc]

/-- C2 witness: the spec's example — a handle reporting id "abc123",
reason 3, text "hello world", offset 5000000, duration 10000000 — yields a
view exposing exactly these five values. -/
theorem C2_fidelity_witness :
    result_get_result_id (stateOk.results 1) maxCharCount = Except.ok "abc123" ∧
    result_get_reason (stateOk.results 1) = Except.ok 3 ∧
    result_get_text (stateOk.results 1) maxCharCount = Except.ok "hello world" ∧
    result_get_offset (stateOk.results 1) = Except.ok 5000000 ∧
    result_get_duration (stateOk.results 1) = Except.ok 10000000 ∧
    ∃ r : RecognitionResult,
      (RecognitionResult.construct 1 stateOk).1 = Except.ok r ∧
      (r.ResultId stateOk).1 = "abc123" ∧ (r.Text stateOk).1 = "hello world" ∧
      (r.Reason stateOk).1 = 3 ∧ (r.Offset stateOk).1 = 5000000 ∧
      (r.Duration stateOk).1 = 10000000 :=
  ⟨rfl, rfl, rfl, rfl, rfl,
   C2_fidelity 1 stateOk "abc123" 3 "hello world" 5000000 10000000
     rfl rfl rfl rfl rfl⟩

/-- C3: whenever any of the five construction-time queries fails,
construction fails with the engine's status code (the first failing one, a
genuine nonzero code), and no view is produced: construction is
all-or-nothing. -/
theorem C3_all_or_nothing (hdl : SPXRESULTHANDLE) (s : EngineState)
    (hbad : ¬ queriesAllOk (s.results hdl)) :
    (RecognitionResult.construct hdl s).1 =
        Except.error (firstFailingHr (s.results hdl)) ∧
    firstFailingHr (s.results hdl) ≠ SPX_NOERROR ∧
    ∀ r : RecognitionResult,
      (RecognitionResult.construct hdl s).1 ≠ Except.ok r := by
  obtain ⟨h1, _, h3⟩ := construct_error_of_not_allOk hdl s hbad
  refine ⟨h1, h3, ?_⟩
  intro r hr
  rw [h1] at hr
  exact Except.noConfusion hr

/-- C3 witness: with the result-id query failing with code 7, construction
fails with exactly that code. -/
theorem C3_all_or_nothing_witness :
    ¬ queriesAllOk (stateIdFails.results 1) ∧
    (RecognitionResult.construct 1 stateIdFails).1 = Except.error 7 ∧
    (7 : SPXHR) ≠ SPX_NOERROR :=
  ⟨by decide, (C3_all_or_nothing 1 stateIdFails (by decide)).1, by decide⟩

/-- C4: `CancellationDetails::FromResult` enforces no precondition on the
result's reason — its outcome is the same for every value of the cached
reason (first conjunct, so in particular for any reason other than
Canceled), and when the two underlying cancellation queries succeed it
succeeds and returns exactly the engine's reported values (second
conjunct). -/
theorem C4_no_precondition (r : RecognitionResult) (s : EngineState)
    (h1 : (s.results r.m_hresult).hrCancelReason = SPX_NOERROR)
    (h2 : (s.results r.m_hresult).hrCancelErrorCode = SPX_NOERROR) :
    (∀ x : Nat,
      (CancellationDetails.fromResult { r with m_reason := x } s).1 =
        (CancellationDetails.fromResult r s).1) ∧
    ∃ c : CancellationDetails,
      (CancellationDetails.fromResult r s).1 = Except.ok c ∧
      c.m_reason = (s.results r.m_hresult).cancelReasonVal ∧
      c.m_errorCode = (s.results r.m_hresult).cancelErrorCodeVal := by
  constructor
  · intro x
    cases hq : CancellationDetails.GetCancellationReason r s with
    | error hr =>
      have hq' : CancellationDetails.GetCancellationReason
          { r with m_reason := x } s = Except.error hr := hq
      simp [CancellationDetails.fromResult, hq, hq']
    | ok cr =>
      have hq' : CancellationDetails.GetCancellationReason
          { r with m_reason := x } s = Except.ok cr := hq
      cases hq2 : CancellationDetails.GetCancellationErrorCode r s with
      | error hr2 =>
        have hq2' : CancellationDetails.GetCancellationErrorCode
            { r with m_reason := x } s = Except.error hr2 := hq2
        simp [CancellationDetails.fromResult, hq, hq', hq2, hq2']
      | ok ec =>
        have hq2' : CancellationDetails.GetCancellationErrorCode
            { r with m_reason := x } s = Except.ok ec := hq2
        simp [CancellationDetails.fromResult, hq, hq', hq2, hq2']
  · refine ⟨{ m_reason := (s.results r.m_hresult).cancelReasonVal,
              m_errorCode := (s.results r.m_hresult).cancelErrorCodeVal,
              ErrorDetails := GetProperty r.m_properties
                PropertyId_SpeechServiceResponse_JsonErrorDetails },
           ?_, rfl, rfl⟩
    simp [CancellationDetails.fromResult,
          CancellationDetails.GetCancellationReason,
          CancellationDetails.GetCancellationErrorCode,
          result_get_reason_canceled, result_get_canceled_error_code,
          RecognitionResult.operatorSPXRESULTHANDLE, h1, h2]

/-- C4 witness: `viewEx` has cached reason 3 (a reason other than Canceled),
yet `FromResult` succeeds on it and reports the engine's cancellation
values. -/
theorem C4_no_precondition_witness :
    (stateOk.results viewEx.m_hresult).hrCancelReason = SPX_NOERROR ∧
    (stateOk.results viewEx.m_hresult).hrCancelErrorCode = SPX_NOERROR ∧
    viewEx.m_reason = 3 ∧
    ((∀ x : Nat,
      (CancellationDetails.fromResult { viewEx with m_reason := x } stateOk).1 =
        (CancellationDetails.fromResult viewEx stateOk).1) ∧
     ∃ c : CancellationDetails,
      (CancellationDetails.fromResult viewEx stateOk).1 = Except.ok c ∧
      c.m_reason = 1 ∧ c.m_errorCode = 0) :=
  ⟨rfl, rfl, rfl, C4_no_precondition viewEx stateOk rfl rfl⟩

/-- C5: `NoMatchDetails::FromResult` issues exactly one engine query (the
no-match reason) whatever happens; it succeeds with the engine's reported
value exactly when that query succeeds, fails with the engine's status code
exactly when it fails, and enforces no condition on the result's cached
reason (its outcome is the same for every value of that field). -/
theorem C5_nomatch_single_query (r : RecognitionResult) (s : EngineState) :
    (NoMatchDetails.fromResult r s).2.2.2 = [EngineCall.getNoMatchReason] ∧
    ((s.results r.m_hresult).hrNoMatchReason = SPX_NOERROR →
      (NoMatchDetails.fromResult r s).1 =
        Except.ok { m_reason := (s.results r.m_hresult).noMatchReasonVal }) ∧
    ((s.results r.m_hresult).hrNoMatchReason ≠ SPX_NOERROR →
      (NoMatchDetails.fromResult r s).1 =
        Except.error (s.results r.m_hresult).hrNoMatchReason) ∧
    (∀ x : Nat,
      (NoMatchDetails.fromResult { r with m_reason := x } s).1 =
        (NoMatchDetails.fromResult r s).1) := by
  refine ⟨?_, ?_, ?_, ?_⟩
  · cases hq : NoMatchDetails.GetNoMatchReason r s with
    | error hr => simp [NoMatchDetails.fromResult, hq]
    | ok v => simp [NoMatchDetails.fromResult, hq]
  · intro hok
    simp [NoMatchDetails.fromResult, NoMatchDetails.GetNoMatchReason,
          result_get_no_match_reason, RecognitionResult.operatorSPXRESULTHANDLE,
          hok]
  · intro hbad
    simp [NoMatchDetails.fromResult, NoMatchDetails.GetNoMatchReason,
          result_get_no_match_reason, RecognitionResult.operatorSPXRESULTHANDLE,
          hbad]
  · intro x
    cases hq : NoMatchDetails.GetNoMatchReason r s with
    | error hr =>
      have hq' : NoMatchDetails.GetNoMatchReason { r with m_reason := x } s =
          Except.error hr := hq
      simp [NoMatchDetails.fromResult, hq, hq']
    | ok v =>
      have hq' : NoMatchDetails.GetNoMatchReason { r with m_reason := x } s =
          Except.ok v := hq
      simp [NoMatchDetails.fromResult, hq, hq']

/-- C5 witness: on the all-success engine `FromResult` issues the single
no-match query and succeeds with the engine's value 1; on the engine whose
no-match query fails with code 9 it fails with exactly that code. -/
theorem C5_nomatch_single_query_witness :
    (NoMatchDetails.fromResult viewEx stateOk).2.2.2 =
      [EngineCall.getNoMatchReason] ∧
    (NoMatchDetails.fromResult viewEx stateOk).1 =
      Except.ok { m_reason := 1 } ∧
    (NoMatchDetails.fromResult viewEx stateNoMatchFails).1 = Except.error 9 :=
  ⟨(C5_nomatch_single_query viewEx stateOk).1,
   (C5_nomatch_single_query viewEx stateOk).2.1 (by decide),
   (C5_nomatch_single_query viewEx stateNoMatchFails).2.2.1 (by decide)⟩

/-- C6: each accessor read of id, text, reason, offset and duration is a
pure read of the field cached at construction: it returns that cached field,
leaves the view and the engine state unchanged, and issues no engine query
(empty call list).  Since the view and state come back unchanged, repeating
any of these reads returns the same value. -/
theorem C6_accessors_pure (r : RecognitionResult) (s : EngineState) :
    r.ResultId s = (r.m_resultId, r, s, []) ∧
    r.Text s = (r.m_text, r, s, []) ∧
    r.Reason s = (r.m_reason, r, s, []) ∧
    r.Offset s = (r.m_offset, r, s, []) ∧
    r.Duration s = (r.m_duration, r, s, []) :=
  ⟨rfl, rfl, rfl, rfl, rfl⟩

/-- C7: when the two cancellation queries succeed,
`CancellationDetails::FromResult` returns a view whose `Reason` and
`ErrorCode` are exactly the engine's reported cancellation reason and error
code, and whose `ErrorDetails` is the value of the
`SpeechServiceResponse_JsonErrorDetails` property of the source result;
when that property is absent, `ErrorDetails` is the empty string and
construction still succeeds. -/
theorem C7_cancellation_fidelity (r : RecognitionResult) (s : EngineState)
    (h1 : (s.results r.m_hresult).hrCancelReason = SPX_NOERROR)
    (h2 : (s.results r.m_hresult).hrCancelErrorCode = SPX_NOERROR) :
    ∃ c : CancellationDetails,
      (CancellationDetails.fromResult r s).1 = Except.ok c ∧
      c.m_reason = (s.results r.m_hresult).cancelReasonVal ∧
      c.m_errorCode = (s.results r.m_hresult).cancelErrorCodeVal ∧
      c.ErrorDetails = GetProperty r.m_properties
        PropertyId_SpeechServiceResponse_JsonErrorDetails ∧
      (∀ v, r.m_properties.lookup
          PropertyId_SpeechServiceResponse_JsonErrorDetails = some v →
        c.ErrorDetails = v) ∧
      (r.m_properties.lookup
          PropertyId_SpeechServiceResponse_JsonErrorDetails = none →
        c.ErrorDetails = "") := by
  refine ⟨{ m_reason := (s.results r.m_hresult).cancelReasonVal,
            m_errorCode := (s.results r.m_hresult).cancelErrorCodeVal,
            ErrorDetails := GetProperty r.m_properties
              PropertyId_SpeechServiceResponse_JsonErrorDetails },
         ?_, rfl, rfl, rfl, ?_, ?_⟩
  · simp [CancellationDetails.fromResult,
          CancellationDetails.GetCancellationReason,
          CancellationDetails.GetCancellationErrorCode,
          result_get_reason_canceled, result_get_canceled_error_code,
          RecognitionResult.operatorSPXRESULTHANDLE, h1, h2]
  · intro v hv
    simp [GetProperty, hv]
  · intro hn
    simp [GetProperty, hn]

/-- C7 witness: `viewEx` carries no `SpeechServiceResponse_JsonErrorDetails`
property, yet `FromResult` succeeds, with the engine's reason 1 and error
code 0, and `ErrorDetails` empty. -/
theorem C7_cancellation_fidelity_witness :
    (stateOk.results viewEx.m_hresult).hrCancelReason = SPX_NOERROR ∧
    (stateOk.results viewEx.m_hresult).hrCancelErrorCode = SPX_NOERROR ∧
    ∃ c : CancellationDetails,
      (CancellationDetails.fromResult viewEx stateOk).1 = Except.ok c ∧
      c.m_reason = 1 ∧
      c.m_errorCode = 0 ∧
      c.ErrorDetails = "" ∧
      (∀ v, ([] : List (String × String)).lookup
          PropertyId_SpeechServiceResponse_JsonErrorDetails = some v →
        c.ErrorDetails = v) ∧
      (([] : List (String × String)).lookup
          PropertyId_SpeechServiceResponse_JsonErrorDetails = none →
        c.ErrorDetails = "") :=
  ⟨rfl, rfl, C7_cancellation_fidelity viewEx stateOk rfl rfl⟩

/-- C8: every view construction reads its two string fields through the
fixed 1024-character buffer, so the stored id and text are the engine-side
strings truncated to at most `maxCharCount` characters, and their lengths
never exceed that bound. -/
theorem C8_bounded_strings (hdl : SPXRESULTHANDLE) (s : EngineState)
    (r : RecognitionResult)
    (hok : (RecognitionResult.construct hdl s).1 = Except.ok r) :
    r.m_resultId.length ≤ maxCharCount ∧ r.m_text.length ≤ maxCharCount ∧
    r.m_resultId = boundedRead (s.results hdl).resultIdVal maxCharCount ∧
    r.m_text = boundedRead (s.results hdl).textVal maxCharCount := by
  by_cases hq : queriesAllOk (s.results hdl)
  · have hc := construct_ok_of_allOk hdl s hq
    rw [hc] at hok
    have hr := Except.ok.inj hok
    subst hr
    exact ⟨boundedRead_length_le _ _, boundedRead_length_le _ _, rfl, rfl⟩
  · obtain ⟨h1, _, _⟩ := construct_error_of_not_allOk hdl s hq
    rw [h1] at hok
    exact Except.noConfusion hok

/-- C8 witness: handle 1 on the all-success engine constructs `viewEx`,
whose id and text are within the 1024-character bound and equal the bounded
reads of the engine-side strings. -/
theorem C8_bounded_strings_witness :
    (RecognitionResult.construct 1 stateOk).1 = Except.ok viewEx ∧
    viewEx.m_resultId.length ≤ maxCharCount ∧
    viewEx.m_text.length ≤ maxCharCount ∧
    viewEx.m_resultId = boundedRead "abc123" maxCharCount ∧
    viewEx.m_text = boundedRead "hello world" maxCharCount :=
  ⟨rfl, (C8_bounded_strings 1 stateOk viewEx rfl).1,
   (C8_bounded_strings 1 stateOk viewEx rfl).2.1,
   (C8_bounded_strings 1 stateOk viewEx rfl).2.2.1,
   (C8_bounded_strings 1 stateOk viewEx rfl).2.2.2⟩

/-- C9 counterexample.  The claim states that no public operation of the
view returns the raw handle itself.  This is false: the public
`explicit operator SPXRESULTHANDLE()` (documented "Internal" in the source)
returns exactly the stored raw handle — here, on a concrete view whose raw
handle is 1, it returns 1. -/
theorem C9_handle_exposure_counterexample :
    RecognitionResult.operatorSPXRESULTHANDLE viewEx = viewEx.m_hresult ∧
    viewEx.m_hresult = 1 :=
  ⟨rfl, rfl⟩

/-- C9 (amended): every public field accessor of the view (id, text, reason,
offset, duration, properties) is independent of the stored raw handle — its
reported value is unchanged under replacing the handle by any other value —
so none of them returns the handle; the raw handle is exposed to callers
through exactly one public operation, the explicit conversion operator,
which returns `m_hresult` itself. -/
theorem C9_handle_exposure_amended (r : RecognitionResult) (s : EngineState)
    (h : SPXRESULTHANDLE) :
    (({ r with m_hresult := h } : RecognitionResult).ResultId s).1 =
        (r.ResultId s).1 ∧
    (({ r with m_hresult := h } : RecognitionResult).Text s).1 =
        (r.Text s).1 ∧
    (({ r with m_hresult := h } : RecognitionResult).Reason s).1 =
        (r.Reason s).1 ∧
    (({ r with m_hresult := h } : RecognitionResult).Offset s).1 =
        (r.Offset s).1 ∧
    (({ r with m_hresult := h } : RecognitionResult).Duration s).1 =
        (r.Duration s).1 ∧
    (({ r with m_hresult := h } : RecognitionResult).Properties s).1 =
        (r.Properties s).1 ∧
    RecognitionResult.operatorSPXRESULTHANDLE r = r.m_hresult :=
  ⟨rfl, rfl, rfl, rfl, rfl, rfl, rfl⟩

/-- C10: constructing a `CancellationDetails` or a `NoMatchDetails` from a
result view leaves the source view entirely unchanged — all of its cached
fields (id, text, reason, offset, duration, property collection, stored
handle) are the same before and after, and the engine state is also
untouched (the detail constructors only read through the result's
handle). -/
theorem C10_detail_frame (r : RecognitionResult) (s : EngineState) :
    (CancellationDetails.fromResult r s).2.1 = r ∧
    (CancellationDetails.fromResult r s).2.2.1 = s ∧
    (NoMatchDetails.fromResult r s).2.1 = r ∧
    (NoMatchDetails.fromResult r s).2.2.1 = s := by
  have hcanc : (CancellationDetails.fromResult r s).2.1 = r ∧
      (CancellationDetails.fromResult r s).2.2.1 = s := by
    cases hq : CancellationDetails.GetCancellationReason r s with
    | error hr => simp [CancellationDetails.fromResult, hq]
    | ok cr =>
      cases hq2 : CancellationDetails.GetCancellationErrorCode r s with
      | error hr2 => simp [CancellationDetails.fromResult, hq, hq2]
      | ok ec => simp [CancellationDetails.fromResult, hq, hq2]
  have hnm : (NoMatchDetails.fromResult r s).2.1 = r ∧
      (NoMatchDetails.fromResult r s).2.2.1 = s := by
    cases hq : NoMatchDetails.GetNoMatchReason r s with
    | error hr => simp [NoMatchDetails.fromResult, hq]
    | ok v => simp [NoMatchDetails.fromResult, hq]
  exact ⟨hcanc.1, hcanc.2, hnm.1, hnm.2⟩

end SpeechSDK
